import Mathlib

/-!
Shallow embedding of the Live-Weather-App (src/app.py), a Streamlit
dashboard that fetches current weather from the OpenWeatherMap API and
renders it.  Python dictionaries parsed from JSON are modelled by the
`Json` inductive; Streamlit output calls are modelled as a list of
`Elem` values; the HTTP world is a function from the request the app
builds to an abstract result (successful response with status and body,
or a transport-level failure).  Exceptions that the Python code does not
catch are modelled by `Option`: a `none` result of the render pass means
an unhandled exception escaped.
-/

namespace WeatherApp

/-- JSON values as Python represents them after `response.json()`:
objects become dicts (modelled as association lists), arrays become
lists, numbers are modelled as rationals. -/
inductive Json where
  | null : Json
  | bool : Bool → Json
  | num : Rat → Json
  | str : String → Json
  | arr : List Json → Json
  | obj : List (String × Json) → Json

/-- Python subscription `d[k]` on a parsed-JSON value, for a string key:
returns `some v` when `d` is a dict containing `k`; `none` models the
KeyError / TypeError that the source would raise. -/
def Json.getKey : Json → String → Option Json
  | .obj fields, k => fields.lookup k
  | _, _ => none

/-- Python subscription `xs[0]`: first element of an array, `none`
models the exception raised on an empty array or a non-array. -/
def Json.first : Json → Option Json
  | .arr (x :: _) => some x
  | _ => none

/-- Python `d.get(k, default)`: total on dicts, `none` models the
AttributeError raised when the receiver is not a dict. -/
def Json.dictGet : Json → String → Json → Option Json
  | .obj fields, k, d => some ((fields.lookup k).getD d)
  | _, _, _ => none

/-- Numeric payload of a JSON number, used where the source hands the
value to a numeric-only consumer (the plotly gauge). -/
def Json.asNum : Json → Option Rat
  | .num q => some q
  | _ => none

/-- String payload of a JSON string, used where the source calls a
`str`-only method (`.title()`). -/
def Json.asStr : Json → Option String
  | .str s => some s
  | _ => none

/-- Decimal digits after the point of the fraction `r / d` with
`r < d`, by long division, fuel-bounded. -/
def fracDigits : Nat → Nat → Nat → String
  | 0, _, _ => ""
  | fuel + 1, r, d =>
    if r = 0 then ""
    else
      let r10 := r * 10
      toString (r10 / d) ++ fracDigits fuel (r10 % d) d

/-- Decimal rendering of a rational, modelling how Python prints the
numbers that appear in the weather response. -/
def decRepr (q : Rat) : String :=
  let n := q.num.natAbs
  let d := q.den
  (if q.num < 0 then "-" else "") ++
    toString (n / d) ++
    (if n % d = 0 then "" else "." ++ fracDigits 40 (n % d) d)

mutual

/-- Python `repr` of a parsed-JSON value. -/
def pyRepr : Json → String
  | .null => "None"
  | .bool true => "True"
  | .bool false => "False"
  | .num q => decRepr q
  | .str s => "\x27" ++ s ++ "\x27"
  | .arr xs => "[" ++ pyReprList xs ++ "]"
  | .obj fs => "\x7b" ++ pyReprFields fs ++ "\x7d"

/-- Comma-separated Python `repr` of array elements. -/
def pyReprList : List Json → String
  | [] => ""
  | [x] => pyRepr x
  | x :: y :: xs => pyRepr x ++ ", " ++ pyReprList (y :: xs)

/-- Comma-separated Python `repr` of dict entries. -/
def pyReprFields : List (String × Json) → String
  | [] => ""
  | [(k, v)] => "\x27" ++ k ++ "\x27: " ++ pyRepr v
  | (k, v) :: f :: fs => "\x27" ++ k ++ "\x27: " ++ pyRepr v ++ ", " ++ pyReprFields (f :: fs)

end

/-- Python `str` of a parsed-JSON value, as an f-string interpolates it. -/
def pyStr : Json → String
  | .str s => s
  | j => pyRepr j

/-- Python `str.title()` over its character list: the first letter of
every alphabetic run is uppercased, the rest lowercased. -/
def pyTitleAux : List Char → Bool → List Char
  | [], _ => []
  | c :: cs, prev =>
    if c.isAlpha then
      (if prev then c.toLower else c.toUpper) :: pyTitleAux cs true
    else
      c :: pyTitleAux cs false

/-- Python `str.title()`. -/
def pyTitle (s : String) : String := String.mk (pyTitleAux s.data false)

/-! ### Gauge Renderer (`create_temperature_gauge`, src/app.py lines 114-142)

The plotly figure built by the source is a static record; every key the
source sets is a field here. -/

/-- One entry of the `steps` list of the gauge configuration. -/
structure GaugeStep where
  range : Rat × Rat
  color : String
deriving DecidableEq, Repr

/-- The `axis` entry of the gauge configuration. -/
structure GaugeAxis where
  range : Rat × Rat
  tickcolor : String
deriving DecidableEq, Repr

/-- The `bar` entry of the gauge configuration. -/
structure GaugeBar where
  color : String
deriving DecidableEq, Repr

/-- The `gauge` dictionary of the plotly Indicator. -/
structure GaugeConfig where
  axis : GaugeAxis
  bar : GaugeBar
  bgcolor : String
  borderwidth : Nat
  bordercolor : String
  steps : List GaugeStep
deriving DecidableEq, Repr

/-- The `delta` dictionary of the plotly Indicator. -/
structure DeltaConfig where
  reference : Rat
  valueformat : String
deriving DecidableEq, Repr

/-- The `title` dictionary of the plotly Indicator. -/
structure TitleConfig where
  text : String
  fontColor : String
deriving DecidableEq, Repr

/-- The figure-level layout set by `fig.update_layout`. -/
structure LayoutConfig where
  height : Nat
  paper_bgcolor : String
  plot_bgcolor : String
  fontColor : String
  marginL : Nat
  marginR : Nat
  marginT : Nat
  marginB : Nat
deriving DecidableEq, Repr

/-- The complete chart specification produced by the Gauge Renderer. -/
structure Figure where
  mode : String
  value : Rat
  delta : DeltaConfig
  title : TitleConfig
  gauge : GaugeConfig
  layout : LayoutConfig
deriving DecidableEq, Repr

/-- `create_temperature_gauge` (src/app.py lines 114-142): builds the
temperature gauge figure from the current and feels-like temperature. -/
def create_temperature_gauge (temp feels_like : Rat) : Figure :=
  { mode := "gauge+number+delta"
    value := temp
    delta := { reference := feels_like, valueformat := ".1f" }
    title := { text := "Temperature (°C)", fontColor := "#FFFFFF" }
    gauge :=
      { axis := { range := (-20, 50), tickcolor := "#FFFFFF" }
        bar := { color := "#4CAF50" }
        bgcolor := "rgba(30, 30, 30, 0.8)"
        borderwidth := 2
        bordercolor := "#333"
        steps :=
          [ { range := (-20, 0), color := "#1E88E5" },
            { range := (0, 20), color := "#FFC107" },
            { range := (20, 50), color := "#FF5722" } ] }
    layout :=
      { height := 300
        paper_bgcolor := "rgba(30, 30, 30, 0.8)"
        plot_bgcolor := "rgba(30, 30, 30, 0.8)"
        fontColor := "#FFFFFF"
        marginL := 10, marginR := 10, marginT := 50, marginB := 10 } }

/-! ### Weather Client (`get_weather_data`, src/app.py lines 94-112) -/

/-- An outbound HTTP request: URL plus query parameters.  A parameter
whose value is `none` mirrors `requests` receiving a `None` value
(`os.getenv` when the variable is unset), which it omits from the URL. -/
structure Request where
  url : String
  params : List (String × Option String)
deriving DecidableEq, Repr

/-- Result of `response.json()`: a parseable body or the decode error
description. -/
inductive BodyParse where
  | ok : Json → BodyParse
  | malformed : String → BodyParse

/-- Result of `requests.get`: either a response with a status code and a
body, or a transport-level exception carrying its description. -/
inductive HttpResult where
  | response : Nat → BodyParse → HttpResult
  | netError : String → HttpResult

/-- The error text of the `except requests.exceptions.HTTPError` branch. -/
def clientErrorMsg : String := "❌ Error: City not found or invalid API key"

/-- The error text of the `except Exception` branch, around the
description of the underlying failure. -/
def transportErrorMsg (desc : String) : String := "❌ An error occurred: " ++ desc

/-- The request `get_weather_data` sends: the fixed endpoint with the
city, the credential read from the environment, and metric units. -/
def weatherRequest (env : String → Option String) (city_name : String) : Request :=
  { url := "https://api.openweathermap.org/data/2.5/weather"
    params := [("q", some city_name), ("appid", env "API_KEY"), ("units", some "metric")] }

/-- `get_weather_data` (src/app.py lines 94-112).  `env` models
`os.getenv`, `http` models the network.  Returns the parsed body (or
`none`), the `st.error` calls made, and the requests issued.
`raise_for_status` raises `HTTPError` exactly for status codes in
`[400, 600)`; a JSON decode failure is not an `HTTPError` and therefore
falls to the generic `except Exception` branch. -/
def get_weather_data (env : String → Option String) (http : Request → HttpResult)
    (city_name : String) : Option Json × List String × List Request :=
  match http (weatherRequest env city_name) with
  | .netError desc => (none, [transportErrorMsg desc], [weatherRequest env city_name])
  | .response status body =>
    if 400 ≤ status ∧ status < 600 then
      (none, [clientErrorMsg], [weatherRequest env city_name])
    else
      match body with
      | .ok j => (some j, [], [weatherRequest env city_name])
      | .malformed desc => (none, [transportErrorMsg desc], [weatherRequest env city_name])

/-! ### Presentation Renderer (`main`, src/app.py lines 144-228)

Each Streamlit call that puts something on the page is one `Elem`. -/

/-- One rendered page element. -/
inductive Elem where
  | markdown : String → Elem
  | textInput : String → String → Elem
  | button : String → Elem
  | error : String → Elem
  | metric : String → String → Option String → Elem
  | info : String → Elem
  | plotlyChart : Figure → Elem
  | expander : String → Elem
  | write : String → String → Elem
deriving DecidableEq, Repr

/-- The page heading markdown (src/app.py lines 146-150). -/
def appHeading : String :=
  "\n        <h1 style=\x27text-align: center; color: #FFFFFF; margin-bottom: 2rem;\x27>\n            🌤️ Weather Dashboard\n        </h1>\n    "

/-- The per-result title markdown (src/app.py lines 169-176), around the
titlecased city and the formatted current time. -/
def weatherTitleHtml (cityTitled now : String) : String :=
  "\n                <h3 style=\x27text-align: center; color: #FFFFFF;\x27>\n                    Weather in " ++
    cityTitled ++
    "\n                </h3>\n                <p style=\x27text-align: center; color: #9E9E9E;\x27>\n                    Last updated: " ++
    now ++ "\n                </p>\n            "

/-- The elements `main` renders before and independently of any fetch:
heading, city input (default London), spacing, submit button. -/
def baseElems : List Elem :=
  [ Elem.markdown appHeading,
    Elem.textInput "Enter City Name" "London",
    Elem.markdown "<br>",
    Elem.button "Get Weather" ]

/-- The conditional rainfall line of the detail panel (src/app.py lines
227-228): absent when the response has no `rain` key, otherwise built
from `data[\x27rain\x27].get(\x271h\x27, 0)` (`none` models the
exception raised when the `rain` value is not a dict). -/
def rainLineElems (data : Json) : Option (List Elem) :=
  match data.getKey "rain" with
  | none => some []
  | some r =>
    (r.dictGet "1h" (Json.num 0)).map fun rv =>
      [Elem.write "**🌧️ Rain (1h):**" (pyStr rv ++ " mm")]

/-- The result half of `main` (src/app.py lines 167-228): everything
rendered once `get_weather_data` returned a parsed body.  A `none`
result models an unhandled exception (missing mandatory key, non-dict
where a dict is subscripted, non-string description, non-numeric gauge
input rejected by plotly validation). -/
def renderWeather (city now : String) (data : Json) : Option (List Elem) :=
  ((data.getKey "main").bind fun m => m.getKey "temp").bind fun temp =>
  ((data.getKey "main").bind fun m => m.getKey "feels_like").bind fun feels =>
  ((data.getKey "main").bind fun m => m.getKey "humidity").bind fun hum =>
  ((data.getKey "wind").bind fun w => w.getKey "speed").bind fun spd =>
  (((data.getKey "weather").bind Json.first).bind fun w0 => w0.getKey "description").bind fun desc =>
  desc.asStr.bind fun descS =>
  temp.asNum.bind fun tempQ =>
  feels.asNum.bind fun feelsQ =>
  ((data.getKey "main").bind fun m => m.getKey "pressure").bind fun press =>
  (data.dictGet "visibility" (Json.str "N/A")).bind fun vis =>
  ((data.getKey "clouds").bind fun c => c.getKey "all").bind fun cld =>
  (rainLineElems data).bind fun rl =>
  some
    ([ Elem.markdown (weatherTitleHtml (pyTitle city) now),
       Elem.metric "Temperature" (pyStr temp ++ "°C")
         (some ("Feels like " ++ pyStr feels ++ "°C")),
       Elem.metric "Humidity" (pyStr hum ++ "%") none,
       Elem.metric "Wind Speed" (pyStr spd ++ " m/s") none,
       Elem.info ("**Current Conditions:** " ++ pyTitle descS),
       Elem.markdown "<div class=\"plot-container\">",
       Elem.plotlyChart (create_temperature_gauge tempQ feelsQ),
       Elem.markdown "</div>",
       Elem.expander "📊 See More Details",
       Elem.write "**🌡️ Pressure:**" (pyStr press ++ " hPa"),
       Elem.write "**👁️ Visibility:**" (pyStr vis ++ " meters"),
       Elem.write "**☁️ Cloudiness:**" (pyStr cld ++ "%") ] ++ rl)

/-- `main` (src/app.py lines 144-228).  `search_clicked` is the button
signal, `city` the text-input value, `now` the formatted clock reading.
Returns the page elements (`none` models an unhandled exception inside
the result branch) and the requests issued.  `if search_clicked and
city:` runs the fetch-and-render branch only for a click with a
non-empty city. -/
def main (env : String → Option String) (http : Request → HttpResult)
    (city : String) (search_clicked : Bool) (now : String) :
    Option (List Elem) × List Request :=
  if search_clicked = true ∧ city ≠ "" then
    match get_weather_data env http city with
    | (some data, errs, reqs) =>
      match renderWeather city now data with
      | some l => (some (baseElems ++ errs.map Elem.error ++ l), reqs)
      | none => (none, reqs)
    | (none, errs, reqs) => (some (baseElems ++ errs.map Elem.error), reqs)
  else
    (some baseElems, [])

/-! ### Response shape

`ReadingShape` records that a parsed response carries every field the
render pass dereferences unconditionally — the WeatherReading shape of
the expected API response — naming the intermediate values so that
theorems can speak about them. -/

/-- The response `data` contains the mandatory WeatherReading fields:
`main.temp` and `main.feels_like` (numeric, as the plotly gauge
requires), `main.humidity`, `wind.speed`, a first `weather` entry with
a string `description`, `main.pressure`, `clouds.all`, and `data` is a
dict so that `data.get("visibility", "N/A")` succeeds. -/
def ReadingShape (data temp feels hum spd desc press vis cld : Json)
    (descS : String) (tempQ feelsQ : Rat) : Prop :=
  (data.getKey "main").bind (fun m => m.getKey "temp") = some temp ∧
  (data.getKey "main").bind (fun m => m.getKey "feels_like") = some feels ∧
  (data.getKey "main").bind (fun m => m.getKey "humidity") = some hum ∧
  (data.getKey "wind").bind (fun w => w.getKey "speed") = some spd ∧
  ((data.getKey "weather").bind Json.first).bind (fun w0 => w0.getKey "description") = some desc ∧
  desc.asStr = some descS ∧
  temp.asNum = some tempQ ∧
  feels.asNum = some feelsQ ∧
  (data.getKey "main").bind (fun m => m.getKey "pressure") = some press ∧
  data.dictGet "visibility" (Json.str "N/A") = some vis ∧
  (data.getKey "clouds").bind (fun c => c.getKey "all") = some cld

/-- The unconditional elements of the result half of the page, in
render order. -/
def renderedCore (city now : String) (temp feels hum spd : Json) (descS : String)
    (tempQ feelsQ : Rat) (press vis cld : Json) : List Elem :=
  [ Elem.markdown (weatherTitleHtml (pyTitle city) now),
    Elem.metric "Temperature" (pyStr temp ++ "°C")
      (some ("Feels like " ++ pyStr feels ++ "°C")),
    Elem.metric "Humidity" (pyStr hum ++ "%") none,
    Elem.metric "Wind Speed" (pyStr spd ++ " m/s") none,
    Elem.info ("**Current Conditions:** " ++ pyTitle descS),
    Elem.markdown "<div class=\"plot-container\">",
    Elem.plotlyChart (create_temperature_gauge tempQ feelsQ),
    Elem.markdown "</div>",
    Elem.expander "📊 See More Details",
    Elem.write "**🌡️ Pressure:**" (pyStr press ++ " hPa"),
    Elem.write "**👁️ Visibility:**" (pyStr vis ++ " meters"),
    Elem.write "**☁️ Cloudiness:**" (pyStr cld ++ "%") ]

/-- On a response of the expected shape the render pass completes and
produces exactly the core elements followed by the conditional rain
line. -/
theorem renderWeather_of_shape (city now : String)
    (data temp feels hum spd desc press vis cld : Json)
    (descS : String) (tempQ feelsQ : Rat) (rl : List Elem)
    (h : ReadingShape data temp feels hum spd desc press vis cld descS tempQ feelsQ)
    (hr : rainLineElems data = some rl) :
    renderWeather city now data =
      some (renderedCore city now temp feels hum spd descS tempQ feelsQ press vis cld ++ rl) := by
  obtain ⟨h1, h2, h3, h4, h5, h6, h7, h8, h9, h10, h11⟩ := h
  simp [renderWeather, renderedCore, h1, h2, h3, h4, h5, h6, h7, h8, h9, h10, h11, hr]

/-! ### Helper lemmas -/

/-- A value under a key forces the container to be a dict. -/
theorem getKey_isObj {data : Json} {k : String} {v : Json}
    (h : data.getKey k = some v) : ∃ fs, data = Json.obj fs := by
  cases data
  case obj fs => exact ⟨fs, rfl⟩
  all_goals simp [Json.getKey] at h

/-- The client-error banner text never coincides with a generic-error
banner text, whatever the underlying description. -/
theorem client_ne_transport (d : String) : clientErrorMsg ≠ transportErrorMsg d := by
  intro h
  have h2 : clientErrorMsg.data = "❌ An error occurred: ".data ++ d.data := by
    rw [h]; rfl
  have h3 := congrArg (List.take 4) h2
  rw [List.take_append_of_le_length (by decide)] at h3
  exact absurd h3 (by decide)

/-- Every call of the Weather Client issues exactly the one request it
builds from the environment credential and the city. -/
theorem get_weather_data_reqs (env : String → Option String)
    (http : Request → HttpResult) (city : String) :
    (get_weather_data env http city).2.2 = [weatherRequest env city] := by
  rcases hh : http (weatherRequest env city) with ⟨s, b⟩ | d
  · by_cases hs : 400 ≤ s ∧ s < 600 <;> rcases b with j | d2 <;>
      simp [get_weather_data, hh, hs]
  · simp [get_weather_data, hh]

/-- The appid parameter of the built request is the credential the
environment holds. -/
theorem weatherRequest_appid (env : String → Option String) (city : String) :
    (weatherRequest env city).params.lookup "appid" = some (env "API_KEY") := rfl

/-! ### Concrete sample data for witnesses -/

/-- A well-formed response for London with both optional fields. -/
def sampleWeather : Json := Json.obj
  [ ("coord", Json.obj [("lon", Json.num (mkRat (-1) 8)), ("lat", Json.num (mkRat 103 2))]),
    ("weather", Json.arr [Json.obj [("id", Json.num 800), ("description", Json.str "clear sky")]]),
    ("main", Json.obj [("temp", Json.num 15), ("feels_like", Json.num (mkRat 71 5)),
                       ("pressure", Json.num 1012), ("humidity", Json.num 70)]),
    ("visibility", Json.num 10000),
    ("wind", Json.obj [("speed", Json.num (mkRat 7 2))]),
    ("clouds", Json.obj [("all", Json.num 10)]),
    ("rain", Json.obj [("1h", Json.num (mkRat 23 10))]) ]

/-- A well-formed response lacking both optional fields (`visibility`
and `rain`). -/
def sampleBare : Json := Json.obj
  [ ("weather", Json.arr [Json.obj [("description", Json.str "overcast clouds")]]),
    ("main", Json.obj [("temp", Json.num 8), ("feels_like", Json.num 5),
                       ("pressure", Json.num 990), ("humidity", Json.num 88)]),
    ("wind", Json.obj [("speed", Json.num 6)]),
    ("clouds", Json.obj [("all", Json.num 100)]) ]

/-- A well-formed response whose `rain` object lacks the `1h` key. -/
def sampleRainEmpty : Json := Json.obj
  [ ("weather", Json.arr [Json.obj [("description", Json.str "light rain")]]),
    ("main", Json.obj [("temp", Json.num 12), ("feels_like", Json.num 11),
                       ("pressure", Json.num 1001), ("humidity", Json.num 95)]),
    ("wind", Json.obj [("speed", Json.num 2)]),
    ("clouds", Json.obj [("all", Json.num 75)]),
    ("rain", Json.obj [("3h", Json.num 1)]) ]

/-- Environment with the credential set. -/
def envOk : String → Option String := fun k => if k = "API_KEY" then some "SECRET" else none

/-- Network that answers every request with the London sample. -/
def httpOk : Request → HttpResult := fun _ => HttpResult.response 200 (BodyParse.ok sampleWeather)

/-- Network that fails every request at transport level. -/
def httpDown : Request → HttpResult := fun _ => HttpResult.netError "connection refused"

theorem sampleWeather_shape :
    ReadingShape sampleWeather (Json.num 15) (Json.num (mkRat 71 5)) (Json.num 70)
      (Json.num (mkRat 7 2)) (Json.str "clear sky") (Json.num 1012) (Json.num 10000)
      (Json.num 10) "clear sky" 15 (mkRat 71 5) :=
  ⟨rfl, rfl, rfl, rfl, rfl, rfl, rfl, rfl, rfl, rfl, rfl⟩

theorem sampleBare_shape :
    ReadingShape sampleBare (Json.num 8) (Json.num 5) (Json.num 88)
      (Json.num 6) (Json.str "overcast clouds") (Json.num 990) (Json.str "N/A")
      (Json.num 100) "overcast clouds" 8 5 :=
  ⟨rfl, rfl, rfl, rfl, rfl, rfl, rfl, rfl, rfl, rfl, rfl⟩

theorem sampleRainEmpty_shape :
    ReadingShape sampleRainEmpty (Json.num 12) (Json.num 11) (Json.num 95)
      (Json.num 2) (Json.str "light rain") (Json.num 1001) (Json.str "N/A")
      (Json.num 75) "light rain" 12 11 :=
  ⟨rfl, rfl, rfl, rfl, rfl, rfl, rfl, rfl, rfl, rfl, rfl⟩

/-! ### Claims -/

/-- C1: every fetch has exactly one of three outcomes — a parsed body
with no error banner, an empty result with the client-error banner, or
an empty result with a generic banner around the failure description —
the latter two banners never coincide; a 2xx response with a parseable
body yields the parsed body, an HTTP error status (400-599, the codes
`raise_for_status` rejects) yields the client-error banner, and a
network failure or a 2xx response with a malformed body yields the
generic banner.  The embedding is a total function, so no exception
reaches the caller. -/
theorem get_weather_data_trichotomy (env : String → Option String)
    (http : Request → HttpResult) (city : String) :
    ((∃ j, (get_weather_data env http city).1 = some j ∧
           (get_weather_data env http city).2.1 = []) ∨
     ((get_weather_data env http city).1 = none ∧
      (get_weather_data env http city).2.1 = [clientErrorMsg]) ∨
     ((get_weather_data env http city).1 = none ∧
      ∃ d, (get_weather_data env http city).2.1 = [transportErrorMsg d])) ∧
    (∀ d, clientErrorMsg ≠ transportErrorMsg d) ∧
    (∀ s j, http (weatherRequest env city) = .response s (.ok j) → 200 ≤ s → s < 300 →
       get_weather_data env http city = (some j, [], [weatherRequest env city])) ∧
    (∀ s b, http (weatherRequest env city) = .response s b → 400 ≤ s → s < 600 →
       get_weather_data env http city = (none, [clientErrorMsg], [weatherRequest env city])) ∧
    (∀ d, http (weatherRequest env city) = .netError d →
       get_weather_data env http city = (none, [transportErrorMsg d], [weatherRequest env city])) ∧
    (∀ s d, http (weatherRequest env city) = .response s (.malformed d) →
       ¬(400 ≤ s ∧ s < 600) →
       get_weather_data env http city = (none, [transportErrorMsg d], [weatherRequest env city])) := by
  refine ⟨?_, client_ne_transport, ?_, ?_, ?_, ?_⟩
  · rcases hh : http (weatherRequest env city) with ⟨s, b⟩ | d
    · by_cases hs : 400 ≤ s ∧ s < 600
      · exact Or.inr (Or.inl (by simp [get_weather_data, hh, hs]))
      · rcases b with j | d
        · exact Or.inl ⟨j, by simp [get_weather_data, hh, hs]⟩
        · exact Or.inr (Or.inr ⟨by simp [get_weather_data, hh, hs], d,
            by simp [get_weather_data, hh, hs]⟩)
    · exact Or.inr (Or.inr ⟨by simp [get_weather_data, hh], d, by simp [get_weather_data, hh]⟩)
  · intro s j hh h2 h3
    have hs : ¬(400 ≤ s ∧ s < 600) := by omega
    simp [get_weather_data, hh, hs]
  · intro s b hh h4 h6
    have hs : 400 ≤ s ∧ s < 600 := ⟨h4, h6⟩
    simp [get_weather_data, hh, hs]
  · intro d hh
    simp [get_weather_data, hh]
  · intro s d hh hs
    simp [get_weather_data, hh, hs]

/-- C1 witness: with the credential set and a network answering 200
with the London sample, the fetch returns the parsed sample, no error
banner, and the one request. -/
theorem get_weather_data_trichotomy_witness :
    get_weather_data envOk httpOk "London" =
      (some sampleWeather, [], [weatherRequest envOk "London"]) :=
  (get_weather_data_trichotomy envOk httpOk "London").2.2.1 200 sampleWeather rfl
    (by decide) (by decide)

/-- C3: for every input pair the gauge has the fixed -20..50 °C axis,
exactly the three fixed color bands (blue on [-20,0], amber on [0,20],
red on [20,50]), its value indicator equal to the current temperature,
and its delta reference equal to the feels-like temperature. -/
theorem create_temperature_gauge_spec (temp feels_like : Rat) :
    (create_temperature_gauge temp feels_like).gauge.axis.range = (-20, 50) ∧
    (create_temperature_gauge temp feels_like).gauge.steps =
      [ { range := (-20, 0), color := "#1E88E5" },
        { range := (0, 20), color := "#FFC107" },
        { range := (20, 50), color := "#FF5722" } ] ∧
    (create_temperature_gauge temp feels_like).value = temp ∧
    (create_temperature_gauge temp feels_like).delta.reference = feels_like :=
  ⟨rfl, rfl, rfl, rfl⟩

/-- C4: the Gauge Renderer is a deterministic pure function of its two
arguments — its embedding takes nothing but the two temperatures, so
two calls on equal pairs yield equal chart specifications. -/
theorem create_temperature_gauge_deterministic (t f t2 f2 : Rat)
    (ht : t = t2) (hf : f = f2) :
    create_temperature_gauge t f = create_temperature_gauge t2 f2 := by
  rw [ht, hf]

/-- C4 witness. -/
theorem create_temperature_gauge_deterministic_witness :
    create_temperature_gauge 15 (mkRat 71 5) = create_temperature_gauge 15 (mkRat 71 5) :=
  create_temperature_gauge_deterministic 15 (mkRat 71 5) 15 (mkRat 71 5) rfl rfl

/-- C5: with the process environment fixed (nothing in the program
writes to it), every request any fetch issues carries as its appid
parameter exactly the credential value the environment holds under
API_KEY, and any two fetches — different cities, different network
behaviour — carry the same credential. -/
theorem api_key_read_only (env : String → Option String)
    (http http2 : Request → HttpResult) (city city2 : String) :
    (∀ r ∈ (get_weather_data env http city).2.2,
       r.params.lookup "appid" = some (env "API_KEY")) ∧
    (∀ r ∈ (get_weather_data env http city).2.2,
       ∀ r2 ∈ (get_weather_data env http2 city2).2.2,
         r.params.lookup "appid" = r2.params.lookup "appid") := by
  constructor
  · intro r hr
    rw [get_weather_data_reqs] at hr
    rw [List.mem_singleton] at hr
    rw [hr]
    exact weatherRequest_appid env city
  · intro r hr r2 hr2
    rw [get_weather_data_reqs, List.mem_singleton] at hr hr2
    rw [hr, hr2, weatherRequest_appid env city, weatherRequest_appid env city2]

/-- C5 witness. -/
theorem api_key_read_only_witness :
    (weatherRequest envOk "London").params.lookup "appid" = some (envOk "API_KEY") :=
  (api_key_read_only envOk httpOk httpDown "London" "Paris").1
    (weatherRequest envOk "London") (by decide)

/-- C10: unless the button was clicked with a non-empty city — in
particular on a click with the empty city string — the fetch-and-render
branch does not run: no request is issued and nothing beyond the static
input surface is rendered. -/
theorem empty_city_no_fetch (env : String → Option String)
    (http : Request → HttpResult) (city : String) (search_clicked : Bool) (now : String)
    (h : ¬(search_clicked = true ∧ city ≠ "")) :
    main env http city search_clicked now = (some baseElems, []) := by
  unfold main
  rw [if_neg h]

/-- C10 witness: a click with the empty city renders only the input
surface and issues no request. -/
theorem empty_city_no_fetch_witness :
    main envOk httpOk "" true "2026-10-12 00:00:00" = (some baseElems, []) :=
  empty_city_no_fetch envOk httpOk "" true "2026-10-12 00:00:00" (by decide)

/-- Python `str` of a JSON number is its decimal rendering. -/
theorem pyStr_num (q : Rat) : pyStr (Json.num q) = decRepr q := by
  simp [pyStr, pyRepr]

/-- C2: on a click with a non-empty city, when the fetch succeeds (2xx
with a parseable body of the expected WeatherReading shape, per the
spec data model), the render pass completes without an unhandled
failure and the page contains all required display fields:
temperature with feels-like annotation, humidity, wind speed, the
condition line, the gauge, pressure and cloudiness. -/
theorem fetch_success_renders_all (env : String → Option String)
    (http : Request → HttpResult) (city now : String)
    (data temp feels hum spd desc press vis cld : Json) (descS : String)
    (tempQ feelsQ : Rat) (rl : List Elem) (s : Nat)
    (hcity : city ≠ "")
    (hhttp : http (weatherRequest env city) = .response s (.ok data))
    (hs1 : 200 ≤ s) (hs2 : s < 300)
    (hshape : ReadingShape data temp feels hum spd desc press vis cld descS tempQ feelsQ)
    (hrain : rainLineElems data = some rl) :
    ∃ out, main env http city true now = (some out, [weatherRequest env city]) ∧
      Elem.metric "Temperature" (pyStr temp ++ "°C")
        (some ("Feels like " ++ pyStr feels ++ "°C")) ∈ out ∧
      Elem.metric "Humidity" (pyStr hum ++ "%") none ∈ out ∧
      Elem.metric "Wind Speed" (pyStr spd ++ " m/s") none ∈ out ∧
      Elem.info ("**Current Conditions:** " ++ pyTitle descS) ∈ out ∧
      Elem.plotlyChart (create_temperature_gauge tempQ feelsQ) ∈ out ∧
      Elem.write "**🌡️ Pressure:**" (pyStr press ++ " hPa") ∈ out ∧
      Elem.write "**☁️ Cloudiness:**" (pyStr cld ++ "%") ∈ out := by
  have hne : ¬(400 ≤ s ∧ s < 600) := by omega
  have hg : get_weather_data env http city = (some data, [], [weatherRequest env city]) := by
    simp [get_weather_data, hhttp, hne]
  have hrw := renderWeather_of_shape city now data temp feels hum spd desc press vis cld
    descS tempQ feelsQ rl hshape hrain
  refine ⟨baseElems ++ List.map Elem.error [] ++
    (renderedCore city now temp feels hum spd descS tempQ feelsQ press vis cld ++ rl),
    ?_, ?_, ?_, ?_, ?_, ?_, ?_, ?_⟩
  · simp [main, hcity, hg, hrw]
  all_goals simp [renderedCore, baseElems]

/-- C2 witness: the London sample renders all required fields. -/
theorem fetch_success_renders_all_witness :
    ∃ out, main envOk httpOk "London" true "2026-10-12 00:00:00" =
        (some out, [weatherRequest envOk "London"]) ∧
      Elem.metric "Temperature" (pyStr (Json.num 15) ++ "°C")
        (some ("Feels like " ++ pyStr (Json.num (mkRat 71 5)) ++ "°C")) ∈ out ∧
      Elem.metric "Humidity" (pyStr (Json.num 70) ++ "%") none ∈ out ∧
      Elem.metric "Wind Speed" (pyStr (Json.num (mkRat 7 2)) ++ " m/s") none ∈ out ∧
      Elem.info ("**Current Conditions:** " ++ pyTitle "clear sky") ∈ out ∧
      Elem.plotlyChart (create_temperature_gauge 15 (mkRat 71 5)) ∈ out ∧
      Elem.write "**🌡️ Pressure:**" (pyStr (Json.num 1012) ++ " hPa") ∈ out ∧
      Elem.write "**☁️ Cloudiness:**" (pyStr (Json.num 10) ++ "%") ∈ out :=
  fetch_success_renders_all envOk httpOk "London" "2026-10-12 00:00:00"
    sampleWeather (Json.num 15) (Json.num (mkRat 71 5)) (Json.num 70)
    (Json.num (mkRat 7 2)) (Json.str "clear sky") (Json.num 1012) (Json.num 10000)
    (Json.num 10) "clear sky" 15 (mkRat 71 5)
    [Elem.write "**🌧️ Rain (1h):**" (pyStr (Json.num (mkRat 23 10)) ++ " mm")] 200
    (by decide) rfl (by decide) (by decide) sampleWeather_shape rfl

/-- C6: over responses of the expected shape, when the response has no
rain field the detail panel contains no rainfall line at all, and when
the rain object carries the 1h key with a numeric value the panel shows
exactly that value followed by mm. -/
theorem rain_detail_line (city now : String)
    (data temp feels hum spd desc press vis cld : Json) (descS : String)
    (tempQ feelsQ : Rat)
    (hshape : ReadingShape data temp feels hum spd desc press vis cld descS tempQ feelsQ) :
    (data.getKey "rain" = none →
      ∃ out, renderWeather city now data = some out ∧
        ∀ v, Elem.write "**🌧️ Rain (1h):**" v ∉ out) ∧
    (∀ r q, data.getKey "rain" = some (Json.obj r) → r.lookup "1h" = some (Json.num q) →
      ∃ out, renderWeather city now data = some out ∧
        Elem.write "**🌧️ Rain (1h):**" (decRepr q ++ " mm") ∈ out) := by
  constructor
  · intro hnone
    have hr : rainLineElems data = some [] := by simp [rainLineElems, hnone]
    refine ⟨_, renderWeather_of_shape city now data temp feels hum spd desc press vis cld
      descS tempQ feelsQ [] hshape hr, ?_⟩
    intro v
    simp [renderedCore]
  · intro r q hrain hq
    have hr : rainLineElems data =
        some [Elem.write "**🌧️ Rain (1h):**" (decRepr q ++ " mm")] := by
      simp [rainLineElems, hrain, Json.dictGet, hq, pyStr_num]
    refine ⟨_, renderWeather_of_shape city now data temp feels hum spd desc press vis cld
      descS tempQ feelsQ _ hshape hr, ?_⟩
    simp [renderedCore]

/-- C6 witness: the London sample carries rain 1h = 2.3 and its page
shows the line value 2.3 mm. -/
theorem rain_detail_line_witness :
    ∃ out, renderWeather "London" "2026-10-12 00:00:00" sampleWeather = some out ∧
      Elem.write "**🌧️ Rain (1h):**" "2.3 mm" ∈ out := by
  have h := (rain_detail_line "London" "2026-10-12 00:00:00" sampleWeather
    (Json.num 15) (Json.num (mkRat 71 5)) (Json.num 70) (Json.num (mkRat 7 2))
    (Json.str "clear sky") (Json.num 1012) (Json.num 10000) (Json.num 10)
    "clear sky" 15 (mkRat 71 5) sampleWeather_shape).2
    [("1h", Json.num (mkRat 23 10))] (mkRat 23 10) rfl rfl
  have e : decRepr (mkRat 23 10) ++ " mm" = "2.3 mm" := by decide
  rw [e] at h
  exact h

/-- C7: over responses of the expected shape, when the visibility field
is absent the visibility line shows the N/A placeholder instead of
failing, and when it is present with a numeric value that value is
shown in meters. -/
theorem visibility_placeholder (city now : String)
    (data temp feels hum spd desc press vis cld : Json) (descS : String)
    (tempQ feelsQ : Rat) (rl : List Elem)
    (hshape : ReadingShape data temp feels hum spd desc press vis cld descS tempQ feelsQ)
    (hrain : rainLineElems data = some rl) :
    (data.getKey "visibility" = none →
      ∃ out, renderWeather city now data = some out ∧
        Elem.write "**👁️ Visibility:**" "N/A meters" ∈ out) ∧
    (∀ n : Rat, data.getKey "visibility" = some (Json.num n) →
      ∃ out, renderWeather city now data = some out ∧
        Elem.write "**👁️ Visibility:**" (decRepr n ++ " meters") ∈ out) := by
  obtain ⟨m, hm, -⟩ := Option.bind_eq_some.mp hshape.1
  obtain ⟨fs, rfl⟩ := getKey_isObj hm
  have h10 := hshape.2.2.2.2.2.2.2.2.2.1
  simp only [Json.dictGet, Option.some.injEq] at h10
  constructor
  · intro hnone
    simp only [Json.getKey] at hnone
    rw [hnone] at h10
    have hvis : vis = Json.str "N/A" := h10.symm
    subst hvis
    refine ⟨_, renderWeather_of_shape city now _ temp feels hum spd desc press _ cld
      descS tempQ feelsQ rl hshape hrain, ?_⟩
    have hNA : pyStr (Json.str "N/A") ++ " meters" = "N/A meters" := rfl
    simp [renderedCore, hNA]
  · intro n hsome
    simp only [Json.getKey] at hsome
    rw [hsome] at h10
    have hvis : vis = Json.num n := h10.symm
    subst hvis
    refine ⟨_, renderWeather_of_shape city now _ temp feels hum spd desc press _ cld
      descS tempQ feelsQ rl hshape hrain, ?_⟩
    simp [renderedCore, pyStr_num]

/-- C7 witness: the bare sample lacks visibility and its page shows the
placeholder. -/
theorem visibility_placeholder_witness :
    ∃ out, renderWeather "Oslo" "2026-10-12 00:00:00" sampleBare = some out ∧
      Elem.write "**👁️ Visibility:**" "N/A meters" ∈ out :=
  (visibility_placeholder "Oslo" "2026-10-12 00:00:00" sampleBare
    (Json.num 8) (Json.num 5) (Json.num 88) (Json.num 6)
    (Json.str "overcast clouds") (Json.num 990) (Json.str "N/A") (Json.num 100)
    "overcast clouds" 8 5 [] sampleBare_shape rfl).1 rfl

/-- C8: on a click with a non-empty city whose fetch fails, the page
is exactly the static input surface followed by error banners — no
title, metric, condition line, gauge or detail panel — and a
subsequent render without a click is again the plain awaiting-input
surface. -/
theorem fetch_failure_renders_only_error (env : String → Option String)
    (http : Request → HttpResult) (city now : String) (search_clicked : Bool)
    (hclick : search_clicked = true) (hcity : city ≠ "")
    (hfail : (get_weather_data env http city).1 = none) :
    (∃ errs : List String,
        main env http city search_clicked now =
          (some (baseElems ++ errs.map Elem.error), [weatherRequest env city])) ∧
    (∀ city2, main env http city2 false now = (some baseElems, [])) := by
  subst hclick
  constructor
  · rcases hga : get_weather_data env http city with ⟨res, errs, reqs⟩
    have hres : res = none := by rw [hga] at hfail; exact hfail
    subst hres
    have hreqs : reqs = [weatherRequest env city] := by
      have h := get_weather_data_reqs env http city
      rw [hga] at h; exact h
    subst hreqs
    exact ⟨errs, by simp [main, hcity, hga]⟩
  · intro city2
    simp [main]

/-- C8 witness: a transport failure leaves only the input surface and
the generic banner, and the next render is the awaiting-input page. -/
theorem fetch_failure_renders_only_error_witness :
    (∃ errs : List String,
        main envOk httpDown "London" true "2026-10-12 00:00:00" =
          (some (baseElems ++ errs.map Elem.error), [weatherRequest envOk "London"])) ∧
    (∀ city2, main envOk httpDown city2 false "2026-10-12 00:00:00" = (some baseElems, [])) :=
  fetch_failure_renders_only_error envOk httpDown "London" "2026-10-12 00:00:00" true
    rfl (by decide) rfl

/-- C9: over responses of the expected shape, a rain object without the
1h key still yields a rainfall line, showing the defaulted value 0 mm. -/
theorem rain_default_zero (city now : String)
    (data temp feels hum spd desc press vis cld : Json) (descS : String)
    (tempQ feelsQ : Rat) (r : List (String × Json))
    (hshape : ReadingShape data temp feels hum spd desc press vis cld descS tempQ feelsQ)
    (hrain : data.getKey "rain" = some (Json.obj r)) (h1h : r.lookup "1h" = none) :
    ∃ out, renderWeather city now data = some out ∧
      Elem.write "**🌧️ Rain (1h):**" "0 mm" ∈ out := by
  have hz : pyStr (Json.num 0) ++ " mm" = "0 mm" := by decide
  have hr : rainLineElems data = some [Elem.write "**🌧️ Rain (1h):**" "0 mm"] := by
    simp [rainLineElems, hrain, Json.dictGet, h1h, hz]
  refine ⟨_, renderWeather_of_shape city now data temp feels hum spd desc press vis cld
    descS tempQ feelsQ _ hshape hr, ?_⟩
  simp [renderedCore]

/-- C9 witness: the sample whose rain object only has a 3h key shows
the 0 mm line. -/
theorem rain_default_zero_witness :
    ∃ out, renderWeather "Bergen" "2026-10-12 00:00:00" sampleRainEmpty = some out ∧
      Elem.write "**🌧️ Rain (1h):**" "0 mm" ∈ out :=
  rain_default_zero "Bergen" "2026-10-12 00:00:00" sampleRainEmpty
    (Json.num 12) (Json.num 11) (Json.num 95) (Json.num 2) (Json.str "light rain")
    (Json.num 1001) (Json.str "N/A") (Json.num 75) "light rain" 12 11
    [("3h", Json.num 1)] sampleRainEmpty_shape rfl rfl

end WeatherApp
